import Mathlib

set_option autoImplicit false

/-!
Verification development for the collector's network observation pipeline.

The definitions below are a shallow embedding of the C++ sources:
`NetworkSignalHandler.cpp` (event → connection translation and tracker
updates), `SelfCheckHandler.h` (self-check event recognition),
`runtime-control/Service.cpp` (control-stream message handling),
`sources/system-inspector/SinspSource.h` (signal handler registry), and the
CO-RE BPF program `tail-called/connect.bpf.c`.  Components whose
implementation is not part of the sources at hand (the connection tracker and
the registry dispatch loop) are modelled from the specification and marked as
such in their doc comments.
-/

namespace Collector

/-- Network address: IPv4 (raw 32-bit value `m_sip`/`m_dip`) or IPv6
(byte array `m_sip.m_b`/`m_dip.m_b`). -/
inductive Address where
  | v4 (ip : Nat)
  | v6 (b : List Nat)
deriving DecidableEq, Repr

/-- `Endpoint(Address, port)` as constructed in `GetConnection`. -/
structure Endpoint where
  address : Address
  port : Nat
deriving DecidableEq, Repr

/-- L4 protocol as used by the collector (`L4Proto`). -/
inductive L4Proto where
  | TCP
  | UDP
  | OTHER
deriving DecidableEq, Repr

/-- The scap-level L4 protocol of an fd (`fd_info->get_l4proto()`):
`SCAP_L4_TCP`, `SCAP_L4_UDP`, or any other code. -/
inductive ScapL4 where
  | SCAP_L4_TCP
  | SCAP_L4_UDP
  | otherCode (code : Nat)
deriving DecidableEq, Repr

/-- `m_sockinfo.m_ipv4info.m_fields`. -/
structure Ipv4Fields where
  m_sip : Nat
  m_dip : Nat
  m_sport : Nat
  m_dport : Nat
deriving DecidableEq, Repr

/-- `m_sockinfo.m_ipv6info.m_fields` (addresses are the `m_b` byte arrays). -/
structure Ipv6Fields where
  m_sip : List Nat
  m_dip : List Nat
  m_sport : Nat
  m_dport : Nat
deriving DecidableEq, Repr

/-- The fd type tag `fd_info->m_type` together with the socket fields that
the corresponding branch of `GetConnection` reads. -/
inductive ScapFdType where
  | ipv4Sock (f : Ipv4Fields)
  | ipv6Sock (f : Ipv6Fields)
  | otherFd
deriving DecidableEq, Repr

/-- The parts of `sinsp_fdinfo` read by `GetConnection`. -/
structure FdInfo where
  role_server : Bool
  role_client : Bool
  l4proto : ScapL4
  fd_type : ScapFdType
deriving DecidableEq, Repr

/-- Event type ordinal (`evt->get_type()`), named for the four exit events the
network handler registers for; all other ordinals are `otherEvent`. -/
inductive EventType where
  | connect_x
  | accept_x
  | close_x
  | shutdown_x
  | otherEvent (code : Nat)
deriving DecidableEq, Repr

/-- The parts of a `sinsp_evt` read by the network signal handler:
`get_event_rawres`, `get_fd_info`, `get_container_id`, `get_ts`,
`get_type`.  Accessors that can fail are `Option`s. -/
structure SinspEvt where
  rawres : Option Int
  fd_info : Option FdInfo
  container_id : Option String
  ts : Nat
  ty : EventType
deriving DecidableEq, Repr

/-- `Modifier` from `NetworkSignalHandler.cpp`. -/
inductive Modifier where
  | INVALID
  | ADD
  | REMOVE
deriving DecidableEq, Repr

/-- The `modifiers` event map: `close<`/`shutdown<` → REMOVE,
`connect<`/`accept<` → ADD, everything else → INVALID. -/
def modifiers : EventType → Modifier
  | .close_x => .REMOVE
  | .shutdown_x => .REMOVE
  | .connect_x => .ADD
  | .accept_x => .ADD
  | .otherEvent _ => .INVALID

/-- `Connection(container_id, local, remote, l4proto, is_server)`. -/
structure Connection where
  container_id : String
  local_ep : Endpoint
  remote : Endpoint
  l4proto : L4Proto
  is_server : Bool
deriving DecidableEq, Repr

/-- The `switch (fd_info->get_l4proto())` in `GetConnection`: selects TCP or
UDP, defaults to dropping the event. -/
def l4protoOf : ScapL4 → Option L4Proto
  | .SCAP_L4_TCP => some .TCP
  | .SCAP_L4_UDP => some .UDP
  | .otherCode _ => none

/-- The `switch (fd_info->m_type)` in `GetConnection`: builds the `client`
endpoint from `(m_sip, m_sport)` and the `server` endpoint from
`(m_dip, m_dport)` in both the IPv4 and IPv6 branches, defaults to dropping
the event. -/
def clientServerOf : ScapFdType → Option (Endpoint × Endpoint)
  | .ipv4Sock f => some (⟨.v4 f.m_sip, f.m_sport⟩, ⟨.v4 f.m_dip, f.m_dport⟩)
  | .ipv6Sock f => some (⟨.v6 f.m_sip, f.m_sport⟩, ⟨.v6 f.m_dip, f.m_dport⟩)
  | .otherFd => none

/-- `NetworkSignalHandler::GetConnection`.  The `Option SinspEvt` argument
models the `evt == nullptr` check. -/
def GetConnection (evt : Option SinspEvt) : Option Connection :=
  match evt with
  | none => none
  | some e =>
    match e.rawres with
    | none => none
    | some res =>
      if res < 0 then none
      else
        match e.fd_info with
        | none => none
        | some fd =>
          let is_server := fd.role_server
          if !is_server && !fd.role_client then none
          else
            match l4protoOf fd.l4proto with
            | none => none
            | some l4proto =>
              match clientServerOf fd.fd_type with
              | none => none
              | some (client, server) =>
                let lcl := if is_server then server else client
                let rmt := if is_server then client else server
                match e.container_id with
                | none => none
                | some cid => some ⟨cid, lcl, rmt, l4proto, is_server⟩

/-- `SignalHandler::Result`. -/
inductive HSResult where
  | PROCESSED
  | IGNORED
  | FINISHED
  | ERROR
deriving DecidableEq, Repr

/-- One call to `conn_tracker_->UpdateConnection(conn, ts, is_add)`. -/
structure UpdateCall where
  conn : Connection
  ts_micros : Nat
  is_add : Bool
deriving DecidableEq, Repr

/-- `NetworkSignalHandler::HandleSignal`.  `isRelevant` abstracts
`IsRelevantConnection` (its body lives outside the handler); the second
component records the calls made to `UpdateConnection`, in order. -/
def HandleSignal (isRelevant : Connection → Bool) (e : SinspEvt) :
    HSResult × List UpdateCall :=
  let modifier := modifiers e.ty
  if modifier = .INVALID then (.IGNORED, [])
  else
    match GetConnection (some e) with
    | none => (.IGNORED, [])
    | some c =>
      if !(isRelevant c) then (.IGNORED, [])
      else (.PROCESSED, [⟨c, e.ts / 1000, modifier = .ADD⟩])

/-- A relevance filter that accepts everything; used to instantiate theorems
at concrete inputs. -/
def relAll : Connection → Bool := fun _ => true

/-- `ConnStatus`: per-connection state `(last_active_time, is_active)`. -/
structure ConnStatus where
  last_active_time : Nat
  is_active : Bool
deriving DecidableEq, Repr

/-- Modelled from the spec: the connection tracker's `update(conn, ts,
is_add)` operation (§4.4.1), restricted to one connection identity; the
`ConnTracker` implementation is not among the sources at hand.  An absent
entry is inserted as `(ts, is_add)`; a present entry becomes
`(max last_active_time ts, is_add)`. -/
def trackerUpdate (entry : Option ConnStatus) (ts : Nat) (is_add : Bool) :
    ConnStatus :=
  match entry with
  | none => ⟨ts, is_add⟩
  | some s => ⟨max s.last_active_time ts, is_add⟩

/-- Modelled from the spec: folding a sequence of `(ts, is_add)` tracker
updates for one connection identity over its table entry. -/
def applyEvents (entry : Option ConnStatus) (evs : List (Nat × Bool)) :
    Option ConnStatus :=
  evs.foldl (fun st ev => some (trackerUpdate st ev.1 ev.2)) entry

/-- Modelled from the spec: `effective_active` at diff time (§4.4.3) — an
inactive entry still inside the afterglow window counts as active. -/
def effectiveActive (enabled : Bool) (W now : Nat) (s : ConnStatus) : Bool :=
  if enabled && !s.is_active && decide (now - s.last_active_time < W) then true
  else s.is_active

/-- What the per-tick diff emits for one connection identity. -/
inductive DiffDelta where
  | add (active : Bool)
  | remove
  | stillOpen
deriving DecidableEq, Repr

/-- Modelled from the spec: one entry's contribution to the per-tick diff
(§4.4.3, step 2): absent from the old state and effectively active →
`add(active=true)`; present with changed effective activity → `add` or
`remove`; otherwise nothing new is emitted. -/
def diffEntry (enabled : Bool) (W now : Nat) (was : Option ConnStatus)
    (cur : ConnStatus) : DiffDelta :=
  let eff := effectiveActive enabled W now cur
  match was with
  | none => if eff then .add true else .stillOpen
  | some w =>
    if w.is_active != eff then (if eff then .add true else .remove)
    else .stillOpen

/-- One registered handler: its event filter bitmap (`event_filter`,
modelled as a predicate on event type ordinals) and its `HandleSignal`
behaviour on an event of a given type. -/
structure SignalHandlerEntry where
  event_filter : Nat → Bool
  handle : Nat → HSResult

/-- The registry's union ("global") bitmap: the bit for an event type is set
iff some registered handler's bitmap has it set. -/
def globalEventFilter (hs : List SignalHandlerEntry) (ty : Nat) : Bool :=
  hs.any fun h => h.event_filter ty

/-- Modelled from the spec: the handlers whose `HandleSignal` the dispatch
loop invokes on an event of type `ty` — none when the global bitmap bit is
clear, otherwise exactly the registered handlers whose bit is set, in
registration order.  The dispatch loop implementation is not among the
sources at hand. -/
def invokedHandlers (hs : List SignalHandlerEntry) (ty : Nat) :
    List SignalHandlerEntry :=
  if globalEventFilter hs ty then hs.filter fun h => h.event_filter ty
  else []

/-- Modelled from the spec: the registry dispatch result (§4.2) — immediate
`IGNORED` when the global bitmap bit is clear, otherwise `PROCESSED` iff
some invoked handler processed the event. -/
def dispatch (hs : List SignalHandlerEntry) (ty : Nat) : HSResult :=
  if !globalEventFilter hs ty then .IGNORED
  else if (invokedHandlers hs ty).any (fun h => h.handle ty == .PROCESSED) then
    .PROCESSED
  else .IGNORED

/-- Sign-normalised `std::string::compare`: negative, zero, or positive
according to lexicographic order, zero exactly on equal strings. -/
def strCompare (a b : String) : Int :=
  match compare a b with
  | .lt => -1
  | .eq => 0
  | .gt => 1

/-- C++ integer-to-`bool` conversion: nonzero is `true`. -/
def cppBool (n : Int) : Bool := n != 0

/-- `SelfCheckHandler::IsSelfCheckEvent(name, exe)` as written:
`name.compare(kSelfChecksName) == 0 || exe.compare(kSelfChecksExePath)`.
The second disjunct is the raw `compare` result converted to `bool`.  The
constants (defined in `SelfChecks.h`, not among the sources at hand) are
passed as the `kName`/`kExePath` parameters. -/
def IsSelfCheckEvent (kName kExePath name exe : String) : Bool :=
  (strCompare name kName == 0) || cppBool (strCompare exe kExePath)

/-- Opaque `storage::RuntimeFilteringConfiguration` payload. -/
structure RuntimeFilteringConfiguration where
  payload : Nat
deriving DecidableEq, Repr

/-- The oneof case of `sensor::MsgToCollector` inspected by
`Service::Receive` via `msg_case()`. -/
inductive MsgCase where
  | kRuntimeFilteringConfiguration (cfg : RuntimeFilteringConfiguration)
  | otherMsg (id : Nat)
deriving DecidableEq, Repr

/-- The parts of `sensor::MsgToCollector` read by `Service::Receive`. -/
structure MsgToCollector where
  msg_case : MsgCase
deriving DecidableEq, Repr

/-- The only outbound message `Service::Receive` builds: a
`sensor::MsgFromCollector` with `runtime_filters_ack` set. -/
inductive MsgFromCollector where
  | runtimeFiltersAck
deriving DecidableEq, Repr

/-- The externally visible effects of one `Service::Receive` call: the
arguments of calls to `Config::GetInstance().Update` and the messages
written back on the stream via `writer_->WriteAsync`, in order. -/
structure ReceiveEffects where
  config_updates : List RuntimeFilteringConfiguration
  writes : List MsgFromCollector
deriving DecidableEq, Repr

/-- `Service::Receive(message)`: a null message does nothing; a message in
the runtime-filtering-configuration case updates the config with that
configuration and writes one ack; any other case only logs. -/
def Receive (message : Option MsgToCollector) : ReceiveEffects :=
  match message with
  | none => ⟨[], []⟩
  | some m =>
    match m.msg_case with
    | .kRuntimeFilteringConfiguration cfg => ⟨[cfg], [.runtimeFiltersAck]⟩
    | .otherMsg _ => ⟨[], []⟩

/-- `EINPROGRESS` from `asm-generic/errno.h`. -/
def EINPROGRESS : Int := 115

/-- Direction argument of `auxmap__store_socktuple_param`. -/
inductive TupleDir where
  | OUTBOUND
  | INBOUND
deriving DecidableEq, Repr

/-- One parameter stored into the auxiliary-map event:
`auxmap__store_s64_param`, `auxmap__store_socktuple_param` (the full socket
tuple extracted from the given socket fd), or `auxmap__store_empty_param`. -/
inductive BpfParam where
  | s64 (v : Int)
  | socktuple (sockfd : Int) (dir : TupleDir)
  | emptyParam
deriving DecidableEq, Repr

/-- The C cast `(s32)x`: two's-complement truncation to 32 bits. -/
def s32cast (x : Int) : Int := (x + 2 ^ 31) % 2 ^ 32 - 2 ^ 31

/-- `sys_exit_connect` from `tail-called/connect.bpf.c`: the list of
parameters stored into the `PPME_SOCKET_CONNECT_X` event for syscall return
value `ret` and first network argument `fd`, or `none` when the auxiliary
map lookup fails (in which case no event is submitted at all). -/
def sys_exit_connect (auxmapOk : Bool) (ret fd : Int) :
    Option (List BpfParam) :=
  if !auxmapOk then none
  else
    let socket_fd := s32cast fd
    some [BpfParam.s64 ret,
      if ret = 0 ∨ ret = -EINPROGRESS then
        BpfParam.socktuple socket_fd .OUTBOUND
      else BpfParam.emptyParam]

end Collector

namespace Collector

/-- C3: an event whose fd L4 protocol is neither TCP nor UDP yields no
connection from `GetConnection`, is ignored by `HandleSignal`, and causes no
call to `UpdateConnection`. -/
theorem getConnection_bad_l4_dropped (rel : Connection → Bool) (e : SinspEvt)
    (fd : FdInfo) (hfd : e.fd_info = some fd)
    (hl4 : fd.l4proto ≠ .SCAP_L4_TCP ∧ fd.l4proto ≠ .SCAP_L4_UDP) :
    GetConnection (some e) = none ∧ HandleSignal rel e = (.IGNORED, []) := by
  obtain ⟨res, fdi, cid, ts, ty⟩ := e
  simp only at hfd
  subst hfd
  have hnone : l4protoOf fd.l4proto = none := by
    cases h : fd.l4proto
    · exact absurd h hl4.1
    · exact absurd h hl4.2
    · rfl
  have hconn : GetConnection (some ⟨res, some fd, cid, ts, ty⟩) = none := by
    cases res with
    | none => rfl
    | some r =>
      simp only [GetConnection]
      split
      · rfl
      · rw [hnone]
        split <;> rfl
  refine ⟨hconn, ?_⟩
  unfold HandleSignal
  rw [hconn]
  cases hm : modifiers ty <;> simp [hm]

/-- Witness for C3 at a concrete raw (non-TCP/UDP) socket event. -/
theorem getConnection_bad_l4_dropped_witness :
    GetConnection (some ⟨some 0, some ⟨true, false, .otherCode 3, .otherFd⟩,
        some "c1", 5000, .connect_x⟩) = none ∧
      HandleSignal relAll ⟨some 0, some ⟨true, false, .otherCode 3, .otherFd⟩,
        some "c1", 5000, .connect_x⟩ = (.IGNORED, []) :=
  getConnection_bad_l4_dropped relAll
    ⟨some 0, some ⟨true, false, .otherCode 3, .otherFd⟩, some "c1", 5000, .connect_x⟩
    ⟨true, false, .otherCode 3, .otherFd⟩ rfl (by decide)

/-- C4: an event that reaches the tracker update carries `is_add = true`
exactly for `connect<`/`accept<` and `is_add = false` for
`close<`/`shutdown<`; any other event type is ignored with no tracker
call. -/
theorem handleSignal_modifier (rel : Connection → Bool) (e : SinspEvt) :
    ((e.ty = .connect_x ∨ e.ty = .accept_x) →
        ∀ u ∈ (HandleSignal rel e).2, u.is_add = true) ∧
      ((e.ty = .close_x ∨ e.ty = .shutdown_x) →
        ∀ u ∈ (HandleSignal rel e).2, u.is_add = false) ∧
      (∀ code, e.ty = .otherEvent code → HandleSignal rel e = (.IGNORED, [])) := by
  refine ⟨?_, ?_, ?_⟩
  · intro hty u hu
    have hmod : modifiers e.ty = .ADD := by
      rcases hty with h | h <;> rw [h] <;> rfl
    unfold HandleSignal at hu
    rw [hmod] at hu
    simp only [reduceCtorEq, if_false] at hu
    rcases hg : GetConnection (some e) with _ | c <;> rw [hg] at hu
    · simp at hu
    · rcases hrel : rel c <;> simp [hrel] at hu
      rw [hu]
  · intro hty u hu
    have hmod : modifiers e.ty = .REMOVE := by
      rcases hty with h | h <;> rw [h] <;> rfl
    unfold HandleSignal at hu
    rw [hmod] at hu
    simp only [reduceCtorEq, if_false] at hu
    rcases hg : GetConnection (some e) with _ | c <;> rw [hg] at hu
    · simp at hu
    · rcases hrel : rel c <;> simp [hrel] at hu
      rw [hu]
  · intro code hty
    have hmod : modifiers e.ty = .INVALID := by rw [hty]; rfl
    unfold HandleSignal
    rw [hmod]
    rfl

/-- Witness for C4: a successful `accept<` event produces an ADD update. -/
theorem handleSignal_modifier_witness :
    (((⟨some 0, some ⟨true, false, .SCAP_L4_TCP, .ipv4Sock ⟨1, 2, 10, 80⟩⟩,
          some "c1", 5000, .accept_x⟩ : SinspEvt).ty = .connect_x ∨
        (⟨some 0, some ⟨true, false, .SCAP_L4_TCP, .ipv4Sock ⟨1, 2, 10, 80⟩⟩,
          some "c1", 5000, .accept_x⟩ : SinspEvt).ty = .accept_x) →
      ∀ u ∈ (HandleSignal relAll ⟨some 0,
          some ⟨true, false, .SCAP_L4_TCP, .ipv4Sock ⟨1, 2, 10, 80⟩⟩,
          some "c1", 5000, .accept_x⟩).2, u.is_add = true) ∧
    (((⟨some 0, some ⟨true, false, .SCAP_L4_TCP, .ipv4Sock ⟨1, 2, 10, 80⟩⟩,
          some "c1", 5000, .accept_x⟩ : SinspEvt).ty = .close_x ∨
        (⟨some 0, some ⟨true, false, .SCAP_L4_TCP, .ipv4Sock ⟨1, 2, 10, 80⟩⟩,
          some "c1", 5000, .accept_x⟩ : SinspEvt).ty = .shutdown_x) →
      ∀ u ∈ (HandleSignal relAll ⟨some 0,
          some ⟨true, false, .SCAP_L4_TCP, .ipv4Sock ⟨1, 2, 10, 80⟩⟩,
          some "c1", 5000, .accept_x⟩).2, u.is_add = false) ∧
    (∀ code, (⟨some 0, some ⟨true, false, .SCAP_L4_TCP, .ipv4Sock ⟨1, 2, 10, 80⟩⟩,
          some "c1", 5000, .accept_x⟩ : SinspEvt).ty = .otherEvent code →
      HandleSignal relAll ⟨some 0,
          some ⟨true, false, .SCAP_L4_TCP, .ipv4Sock ⟨1, 2, 10, 80⟩⟩,
          some "c1", 5000, .accept_x⟩ = (.IGNORED, [])) :=
  handleSignal_modifier relAll
    ⟨some 0, some ⟨true, false, .SCAP_L4_TCP, .ipv4Sock ⟨1, 2, 10, 80⟩⟩,
      some "c1", 5000, .accept_x⟩

/-- C5: every connection built by `GetConnection` stores its role flag from
the fd's server role, takes the local endpoint from the `(m_dip, m_dport)`
side and the remote from the `(m_sip, m_sport)` side when the fd role is
server, and symmetrically when the role is client. -/
theorem getConnection_role_endpoints (e : SinspEvt) (fd : FdInfo)
    (c : Connection) (hfd : e.fd_info = some fd)
    (hc : GetConnection (some e) = some c) :
    c.is_server = fd.role_server ∧
      (∀ f, fd.fd_type = .ipv4Sock f →
        c.local_ep = (if fd.role_server then (⟨.v4 f.m_dip, f.m_dport⟩ : Endpoint)
            else ⟨.v4 f.m_sip, f.m_sport⟩) ∧
          c.remote = (if fd.role_server then (⟨.v4 f.m_sip, f.m_sport⟩ : Endpoint)
            else ⟨.v4 f.m_dip, f.m_dport⟩)) ∧
      (∀ f, fd.fd_type = .ipv6Sock f →
        c.local_ep = (if fd.role_server then (⟨.v6 f.m_dip, f.m_dport⟩ : Endpoint)
            else ⟨.v6 f.m_sip, f.m_sport⟩) ∧
          c.remote = (if fd.role_server then (⟨.v6 f.m_sip, f.m_sport⟩ : Endpoint)
            else ⟨.v6 f.m_dip, f.m_dport⟩)) := by
  obtain ⟨res, fdi, cid, ts, ty⟩ := e
  simp only at hfd
  subst hfd
  cases res with
  | none => exact absurd hc (by simp [GetConnection])
  | some r =>
    simp only [GetConnection] at hc
    split at hc
    · exact absurd hc (by simp)
    · split at hc
      · exact absurd hc (by simp)
      · rcases h4 : l4protoOf fd.l4proto with _ | l4 <;> rw [h4] at hc
        · exact absurd hc (by simp)
        · rcases hcs : clientServerOf fd.fd_type with _ | ⟨cl, sv⟩ <;>
            rw [hcs] at hc
          · exact absurd hc (by simp)
          · cases cid with
            | none => exact absurd hc (by simp)
            | some cidv =>
              simp only [Option.some.injEq] at hc
              subst hc
              refine ⟨rfl, ?_, ?_⟩
              · intro f hf
                rw [hf] at hcs
                simp only [clientServerOf, Option.some.injEq, Prod.mk.injEq] at hcs
                obtain ⟨rfl, rfl⟩ := hcs
                cases fd.role_server <;> simp
              · intro f hf
                rw [hf] at hcs
                simp only [clientServerOf, Option.some.injEq, Prod.mk.injEq] at hcs
                obtain ⟨rfl, rfl⟩ := hcs
                cases fd.role_server <;> simp

/-- Witness for C5: a server-role IPv4 accept event stores
`local = (m_dip, m_dport)`, `remote = (m_sip, m_sport)`,
`is_server = true`. -/
theorem getConnection_role_endpoints_witness :
    (Connection.mk "c1" ⟨.v4 2, 80⟩ ⟨.v4 1, 10⟩ .TCP true).is_server =
        (FdInfo.mk true false .SCAP_L4_TCP (.ipv4Sock ⟨1, 2, 10, 80⟩)).role_server ∧
      (∀ f, (FdInfo.mk true false .SCAP_L4_TCP
            (.ipv4Sock ⟨1, 2, 10, 80⟩)).fd_type = .ipv4Sock f →
        (Connection.mk "c1" ⟨.v4 2, 80⟩ ⟨.v4 1, 10⟩ .TCP true).local_ep =
            (if (FdInfo.mk true false .SCAP_L4_TCP
                (.ipv4Sock ⟨1, 2, 10, 80⟩)).role_server then
              (⟨.v4 f.m_dip, f.m_dport⟩ : Endpoint)
            else ⟨.v4 f.m_sip, f.m_sport⟩) ∧
          (Connection.mk "c1" ⟨.v4 2, 80⟩ ⟨.v4 1, 10⟩ .TCP true).remote =
            (if (FdInfo.mk true false .SCAP_L4_TCP
                (.ipv4Sock ⟨1, 2, 10, 80⟩)).role_server then
              (⟨.v4 f.m_sip, f.m_sport⟩ : Endpoint)
            else ⟨.v4 f.m_dip, f.m_dport⟩)) ∧
      (∀ f, (FdInfo.mk true false .SCAP_L4_TCP
            (.ipv4Sock ⟨1, 2, 10, 80⟩)).fd_type = .ipv6Sock f →
        (Connection.mk "c1" ⟨.v4 2, 80⟩ ⟨.v4 1, 10⟩ .TCP true).local_ep =
            (if (FdInfo.mk true false .SCAP_L4_TCP
                (.ipv4Sock ⟨1, 2, 10, 80⟩)).role_server then
              (⟨.v6 f.m_dip, f.m_dport⟩ : Endpoint)
            else ⟨.v6 f.m_sip, f.m_sport⟩) ∧
          (Connection.mk "c1" ⟨.v4 2, 80⟩ ⟨.v4 1, 10⟩ .TCP true).remote =
            (if (FdInfo.mk true false .SCAP_L4_TCP
                (.ipv4Sock ⟨1, 2, 10, 80⟩)).role_server then
              (⟨.v6 f.m_sip, f.m_sport⟩ : Endpoint)
            else ⟨.v6 f.m_dip, f.m_dport⟩)) :=
  getConnection_role_endpoints
    ⟨some 0, some ⟨true, false, .SCAP_L4_TCP, .ipv4Sock ⟨1, 2, 10, 80⟩⟩,
      some "c1", 5000, .accept_x⟩
    ⟨true, false, .SCAP_L4_TCP, .ipv4Sock ⟨1, 2, 10, 80⟩⟩
    ⟨"c1", ⟨.v4 2, 80⟩, ⟨.v4 1, 10⟩, .TCP, true⟩ rfl (by rfl)

/-- C10: `HandleSignal` returns only PROCESSED or IGNORED; it returns
PROCESSED exactly when it calls `UpdateConnection` exactly once, and every
such call passes the event timestamp integer-divided by 1000. -/
theorem handleSignal_result_shape (rel : Connection → Bool) (e : SinspEvt) :
    ((HandleSignal rel e).1 = .PROCESSED ∨ (HandleSignal rel e).1 = .IGNORED) ∧
      ((HandleSignal rel e).1 = .PROCESSED ↔ (HandleSignal rel e).2.length = 1) ∧
      ∀ u ∈ (HandleSignal rel e).2, u.ts_micros = e.ts / 1000 := by
  unfold HandleSignal
  cases hm : modifiers e.ty
  · simp
  · rcases hg : GetConnection (some e) with _ | c
    · simp
    · rcases hrel : rel c <;> simp [hrel]
  · rcases hg : GetConnection (some e) with _ | c
    · simp
    · rcases hrel : rel c <;> simp [hrel]

/-- Witness for C10 at a concrete successful `accept<` event. -/
theorem handleSignal_result_shape_witness :
    ((HandleSignal relAll ⟨some 0,
          some ⟨true, false, .SCAP_L4_TCP, .ipv4Sock ⟨1, 2, 10, 80⟩⟩,
          some "c1", 5999, .accept_x⟩).1 = .PROCESSED ∨
        (HandleSignal relAll ⟨some 0,
          some ⟨true, false, .SCAP_L4_TCP, .ipv4Sock ⟨1, 2, 10, 80⟩⟩,
          some "c1", 5999, .accept_x⟩).1 = .IGNORED) ∧
      ((HandleSignal relAll ⟨some 0,
          some ⟨true, false, .SCAP_L4_TCP, .ipv4Sock ⟨1, 2, 10, 80⟩⟩,
          some "c1", 5999, .accept_x⟩).1 = .PROCESSED ↔
        (HandleSignal relAll ⟨some 0,
          some ⟨true, false, .SCAP_L4_TCP, .ipv4Sock ⟨1, 2, 10, 80⟩⟩,
          some "c1", 5999, .accept_x⟩).2.length = 1) ∧
      ∀ u ∈ (HandleSignal relAll ⟨some 0,
          some ⟨true, false, .SCAP_L4_TCP, .ipv4Sock ⟨1, 2, 10, 80⟩⟩,
          some "c1", 5999, .accept_x⟩).2, u.ts_micros = 5999 / 1000 :=
  handleSignal_result_shape relAll
    ⟨some 0, some ⟨true, false, .SCAP_L4_TCP, .ipv4Sock ⟨1, 2, 10, 80⟩⟩,
      some "c1", 5999, .accept_x⟩

/-- C2: an event whose raw result code is absent or negative is ignored by
`NetworkSignalHandler::HandleSignal` and causes no call to
`UpdateConnection`. -/
theorem handleSignal_bad_res_ignored (rel : Connection → Bool) (e : SinspEvt)
    (h : e.rawres = none ∨ ∃ r : Int, e.rawres = some r ∧ r < 0) :
    HandleSignal rel e = (.IGNORED, []) := by
  obtain ⟨res, fdi, cid, ts, ty⟩ := e
  have hconn : GetConnection (some ⟨res, fdi, cid, ts, ty⟩) = none := by
    rcases h with h | ⟨r, hr, hneg⟩
    · simp only at h
      subst h
      rfl
    · simp only at hr
      subst hr
      simp [GetConnection, hneg]
  unfold HandleSignal
  rw [hconn]
  cases hm : modifiers ty <;> simp [hm]

/-- Witness for C2 at a concrete negative-result `connect<` event. -/
theorem handleSignal_bad_res_ignored_witness :
    HandleSignal relAll ⟨some (-2), none, none, 1000, .connect_x⟩ =
      (.IGNORED, []) :=
  handleSignal_bad_res_ignored relAll ⟨some (-2), none, none, 1000, .connect_x⟩
    (Or.inr ⟨-2, rfl, by norm_num⟩)

/-- C1: with afterglow enabled and window `W > 0`, an open-close-open event
sequence for one connection identity with both gaps shorter than `W` leaves
the entry active, and the per-tick diff covering the sequence emits exactly
one `add` with `active = true` for it — in particular no `remove`. -/
theorem afterglow_collapse (W t1 t2 t3 now : Nat) (hW : 0 < W)
    (h12 : t1 ≤ t2) (g1 : t2 - t1 < W) (h23 : t2 ≤ t3) (g2 : t3 - t2 < W)
    (hnow : t3 ≤ now) :
    ∃ s, applyEvents none [(t1, true), (t2, false), (t3, true)] = some s ∧
      diffEntry true W now none s = .add true ∧
      diffEntry true W now none s ≠ .remove := by
  refine ⟨⟨max (max t1 t2) t3, true⟩, rfl, ?_, ?_⟩ <;>
    simp [diffEntry, effectiveActive]

/-- Witness for C1 with `W = 5`, events at 1, 3, 5, tick at 6. -/
theorem afterglow_collapse_witness :
    ∃ s, applyEvents none [(1, true), (3, false), (5, true)] = some s ∧
      diffEntry true 5 6 none s = .add true ∧
      diffEntry true 5 6 none s ≠ .remove :=
  afterglow_collapse 5 1 3 5 6 (by decide) (by decide) (by decide) (by decide)
    (by decide) (by decide)

/-- C6: for an event whose type bit is clear in every registered handler's
bitmap (equivalently, clear in the global union bitmap), dispatch returns
IGNORED and no handler's `HandleSignal` is invoked. -/
theorem dispatch_unfiltered_ignored (hs : List SignalHandlerEntry) (ty : Nat)
    (h : ∀ he ∈ hs, he.event_filter ty = false) :
    globalEventFilter hs ty = false ∧ dispatch hs ty = .IGNORED ∧
      invokedHandlers hs ty = [] := by
  have hg : globalEventFilter hs ty = false := by
    unfold globalEventFilter
    rw [List.any_eq_false]
    intro he hhe
    simp [h he hhe]
  refine ⟨hg, ?_, ?_⟩
  · unfold dispatch
    rw [hg]
    rfl
  · unfold invokedHandlers
    rw [hg]
    rfl

/-- Witness for C6: a two-handler registry where neither bitmap has bit 7
set. -/
theorem dispatch_unfiltered_ignored_witness :
    globalEventFilter [⟨fun t => t == 3, fun _ => .PROCESSED⟩,
        ⟨fun t => t == 4, fun _ => .ERROR⟩] 7 = false ∧
      dispatch [⟨fun t => t == 3, fun _ => .PROCESSED⟩,
        ⟨fun t => t == 4, fun _ => .ERROR⟩] 7 = .IGNORED ∧
      invokedHandlers [⟨fun t => t == 3, fun _ => .PROCESSED⟩,
        ⟨fun t => t == 4, fun _ => .ERROR⟩] 7 = [] :=
  dispatch_unfiltered_ignored
    [⟨fun t => t == 3, fun _ => .PROCESSED⟩, ⟨fun t => t == 4, fun _ => .ERROR⟩]
    7 (by intro he hhe; fin_cases hhe <;> rfl)

/-- C7: `IsSelfCheckEvent` does NOT implement "name matches or exe matches":
with known name "self-checks" and known path "/usr/local/bin/self-checks",
the event ("bash", "/bin/bash") matches neither, yet the function returns
`true`, because the missing `== 0` on the second `compare` makes that
disjunct mean "exe differs from the known path". -/
theorem isSelfCheckEvent_accepts_nonmatching :
    IsSelfCheckEvent "self-checks" "/usr/local/bin/self-checks"
        "bash" "/bin/bash" = true ∧
      ¬("bash" = "self-checks" ∨
        "/bin/bash" = "/usr/local/bin/self-checks") := by
  constructor
  · rfl
  · decide

/-- C8: a non-null inbound message in the runtime-filtering-configuration
case makes `Service::Receive` update the config with exactly that
configuration and write exactly one `runtime_filters_ack`; a null message
produces no update and no write. -/
theorem receive_updates_and_acks (m : MsgToCollector)
    (cfg : RuntimeFilteringConfiguration)
    (h : m.msg_case = .kRuntimeFilteringConfiguration cfg) :
    Receive (some m) = ⟨[cfg], [.runtimeFiltersAck]⟩ ∧
      Receive none = ⟨[], []⟩ := by
  obtain ⟨mc⟩ := m
  simp only at h
  subst h
  exact ⟨rfl, rfl⟩

/-- Witness for C8 at a concrete configuration message. -/
theorem receive_updates_and_acks_witness :
    Receive (some ⟨.kRuntimeFilteringConfiguration ⟨42⟩⟩) =
        ⟨[⟨42⟩], [.runtimeFiltersAck]⟩ ∧
      Receive none = ⟨[], []⟩ :=
  receive_updates_and_acks ⟨.kRuntimeFilteringConfiguration ⟨42⟩⟩ ⟨42⟩ rfl

/-- C9: on a connect syscall exit (with the auxiliary map available) the BPF
program stores exactly two parameters: the return value as the first, and as
the second the socket tuple exactly when `ret` is `0` or `-EINPROGRESS`, an
empty parameter otherwise. -/
theorem sys_exit_connect_params (ret fd : Int) :
    ∃ ps, sys_exit_connect true ret fd = some ps ∧ ps.length = 2 ∧
      ps.head? = some (.s64 ret) ∧
      ((ret = 0 ∨ ret = -EINPROGRESS) →
        ps[1]? = some (.socktuple (s32cast fd) .OUTBOUND)) ∧
      (¬(ret = 0 ∨ ret = -EINPROGRESS) → ps[1]? = some .emptyParam) := by
  by_cases h : ret = 0 ∨ ret = -EINPROGRESS <;>
    exact ⟨_, rfl, by simp, by simp, by simp [h], by simp [h]⟩

/-- Witness for C9 at `ret = -EINPROGRESS = -115`, `fd = 5`. -/
theorem sys_exit_connect_params_witness :
    ∃ ps, sys_exit_connect true (-115) 5 = some ps ∧ ps.length = 2 ∧
      ps.head? = some (.s64 (-115)) ∧
      (((-115 : Int) = 0 ∨ (-115 : Int) = -EINPROGRESS) →
        ps[1]? = some (.socktuple (s32cast 5) .OUTBOUND)) ∧
      (¬((-115 : Int) = 0 ∨ (-115 : Int) = -EINPROGRESS) →
        ps[1]? = some .emptyParam) :=
  sys_exit_connect_params (-115) 5

end Collector
